import Mathlib

namespace Robonomics

/-! Embedding of custom_components/robonomics/get_states.py and
config_flow.py.  Python dicts with string keys are modelled as ordered
association lists; dict assignment replaces the first binding of the key
in place or appends a new binding at the end. -/

/-- Lookup of the binding of a key in an association list modelling a
Python dict. -/
def dictLookup {α : Type} : List (String × α) → String → Option α
| [], _ => none
| (k0, v) :: rest, k => if k0 = k then some v else dictLookup rest k

/-- Python dict assignment d[k] = v: replace the first binding of k in
place, or append a new binding at the end. -/
def dictInsert {α : Type} : List (String × α) → String → α → List (String × α)
| [], k, v => [(k, v)]
| (k0, v0) :: rest, k, v =>
  if k0 = k then (k, v) :: rest else (k0, v0) :: dictInsert rest k v

/-- Python slice test name[:n] == pat for a pattern pat of length n:
the first (length of pat) characters of the list, compared with pat. -/
def charsStartWith (pat l : List Char) : Bool := decide (l.take pat.length = pat)

/-- Python substring test pat in l, as used on file names. -/
def charsContain (pat : List Char) : List Char → Bool
| [] => decide (pat = [])
| c :: rest => charsStartWith pat (c :: rest) || charsContain pat rest

/-- Telemetry marker test from clear_files, get_states.py line 237:
datafile[:4] == "data". -/
def is_telemetry_file (name : String) : Bool := charsStartWith ("data".data) name.data

/-- Configuration marker test from get_states.py line 172:
"config_encrypted" in name_file. -/
def has_encrypted_config_marker (name : String) : Bool :=
charsContain ("config_encrypted".data) name.data

/-- Configuration-marked staged file name test.  Modelled from the spec:
the stager (ipfs.py, not under src/) writes configuration blobs under a
filename that embeds the configuration marker, so such names start with
the marker "config_encrypted". -/
def is_config_marked_file (name : String) : Bool :=
charsStartWith ("config_encrypted".data) name.data

/-- Directory listing left behind by clear_files (get_states.py lines
231-238): every file whose name starts with "data" is removed by
os.remove, everything else is untouched. -/
def clear_files (files : List String) : List String :=
files.filter (fun f => !(is_telemetry_file f))

/-- The file names clear_files removes, in listing order: exactly the
os.remove calls issued by get_states.py lines 236-238. -/
def cleared_files (files : List String) : List String :=
files.filter (fun f => is_telemetry_file f)

/-- One record returned by the recorder range query of
state_changes_during_period (get_states.py lines 69-92), which is issued
with include_start_time_state=True so the state at the window start is
materialised as the first record. -/
structure RawState where
  state : String
  last_changed : String
deriving DecidableEq

/-- One record of the stored history list built at get_states.py
line 117. -/
structure HistoryRecord where
  state : String
  date : String
deriving DecidableEq

/-- Embedding of get_state_history (get_states.py lines 95-118): the raw
range-query result with its first element dropped (states = states[1:]),
each remaining state paired with the string of its last_changed date. -/
def get_state_history (raw : List RawState) : List HistoryRecord :=
(raw.drop 1).map (fun s => { state := s.state, date := s.last_changed })

/-- Python str applied to a value that may be None: None prints as the
literal string "None". -/
def pyStrOpt : Option String → String
| some s => s
| none => "None"

/-- Current state of an entity as returned by hass.states.get: a state
value and an attribute dict. -/
structure EntityState where
  state : String
  attributes : List (String × String)
deriving DecidableEq

/-- Entity registry entry: the entity id and the optional owning device
id. -/
structure EntityData where
  entity_id : String
  device_id : Option String
deriving DecidableEq

/-- Device registry entry: the optional user-assigned name and the
optional default name. -/
structure DeviceEntry where
  name_by_user : Option String
  name : Option String
deriving DecidableEq

/-- Per-entity record built at get_states.py lines 213-217: always the
same three fields units, state, history. -/
structure EntityInfo where
  units : String
  state : String
  history : List HistoryRecord
deriving DecidableEq

/-- Per-device bucket built at get_states.py lines 221-224: display name
and the dict of entity id to entity record. -/
structure DeviceRecord where
  name : String
  entities : List (String × EntityInfo)
deriving DecidableEq

/-- Value stored at a top-level key of the snapshot dict: a device bucket,
or the reserved twin id appended at get_states.py line 227. -/
inductive SnapshotValue
| device (d : DeviceRecord)
| twin (id : Nat)
deriving DecidableEq

/-- The inputs get_states reads: the entity registry listing, the current
state source, the raw 24h history source, the device registry and the
twin id held in hass.data. -/
structure HassState where
  entities : List EntityData
  states : String → Option EntityState
  raw_history : String → List RawState
  device_registry : String → DeviceEntry
  twin_id : Nat

/-- Device display name resolution at get_states.py line 220:
str(name_by_user) if it is not None, else str(name). -/
def device_display_name (d : DeviceEntry) : String :=
match d.name_by_user with
| some n => n
| none => pyStrOpt d.name

/-- The entity record built at get_states.py lines 208-217: units is
str(attributes.get("unit_of_measurement")) (so a missing attribute gives
the literal string "None"), state is the state string, history is the
24h history with the boundary record dropped. -/
def entity_info_of (h : HassState) (eid : String) (st : EntityState) : EntityInfo :=
{ units := pyStrOpt (dictLookup st.attributes ("unit_of_measurement")),
  state := st.state,
  history := get_state_history (h.raw_history eid) }

/-- One iteration of the loop at get_states.py lines 203-226: entities
with no owning device or no current state are skipped, otherwise the
entity record is inserted into its device bucket, creating the bucket on
first encounter. -/
def process_entity (h : HassState) (acc : List (String × DeviceRecord)) (e : EntityData) :
    List (String × DeviceRecord) :=
match e.device_id with
| none => acc
| some did =>
  match h.states e.entity_id with
  | none => acc
  | some st =>
    let info := entity_info_of h e.entity_id st
    match dictLookup acc did with
    | none =>
      dictInsert acc did
        { name := device_display_name (h.device_registry did),
          entities := [(e.entity_id, info)] }
    | some dr =>
      dictInsert acc did { dr with entities := dictInsert dr.entities e.entity_id info }

/-- The devices_data dict after the loop of get_states.py lines 203-226. -/
def devices_data_of (h : HassState) : List (String × DeviceRecord) :=
h.entities.foldl (process_entity h) []

/-- Embedding of get_states (get_states.py lines 187-228): the devices
dict with the reserved twin_id key assigned last (line 227).  The call to
get_dashboard_and_services at line 197 does not touch devices_data and is
modelled separately. -/
def get_states (h : HassState) : List (String × SnapshotValue) :=
dictInsert ((devices_data_of h).map (fun p => (p.1, SnapshotValue.device p.2)))
  "twin_id" (SnapshotValue.twin h.twin_id)

/-- Whether an entity id is a key of some device bucket of a devices
dict. -/
def entity_key_in_devices : List (String × DeviceRecord) → String → Bool
| [], _ => false
| p :: rest, eid => (dictLookup p.2.entities eid).isSome || entity_key_in_devices rest eid

/-- Whether an entity id is a key of some device bucket of the snapshot. -/
def entity_in_snapshot : List (String × SnapshotValue) → String → Bool
| [], _ => false
| p :: rest, eid =>
  (match p.2 with
   | SnapshotValue.device d => (dictLookup d.entities eid).isSome
   | SnapshotValue.twin _ => false) || entity_in_snapshot rest eid

/-- Whether the pair of an entity id and its record occurs in some device
bucket of the snapshot. -/
def entity_record_in_snapshot : List (String × SnapshotValue) → String → EntityInfo → Bool
| [], _, _ => false
| p :: rest, eid, info =>
  (match p.2 with
   | SnapshotValue.device d => decide ((eid, info) ∈ d.entities)
   | SnapshotValue.twin _ => false) || entity_record_in_snapshot rest eid info

/-- Whether the pair of an entity id and its record occurs in some device
bucket of a devices dict. -/
def record_pair_in_devices : List (String × DeviceRecord) → String → EntityInfo → Bool
| [], _, _ => false
| p :: rest, eid, info =>
  decide ((eid, info) ∈ p.2.entities) || record_pair_in_devices rest eid info

/-- The loop guard at get_states.py lines 205-207: the entity has an
owning device and a current state. -/
def qualifies (h : HassState) (e : EntityData) : Bool :=
e.device_id.isSome && (h.states e.entity_id).isSome

/-- The device identifier keys under which entities were grouped. -/
def device_keys (h : HassState) : List String :=
(devices_data_of h).map Prod.fst

/-- The configuration document built at get_states.py lines 153-157 from
the current services list, the dashboard layout and the twin id. -/
structure Config where
  services : List (String × String)
  dashboard : String
  twin_id : Nat
deriving DecidableEq

/-- Encrypted payload: either the encryption of a configuration document
produced by encrypt_message at get_states.py line 168, or raw bytes read
back from a staged file. -/
inductive Blob
| enc (c : Config)
| raw (s : String)
deriving DecidableEq

/-- On-disk state of the configuration cache directory: the parse result
of the plaintext config file (none when the file is absent, corrupt or
not a configuration document, in which case json load at get_states.py
lines 146-151 degrades to the empty dict, which never equals the
three-key candidate document), and the directory listing with each file's
contents. -/
structure ConfigDirState where
  plaintext : Option Config
  files : List (String × Blob)
deriving DecidableEq

/-- The change test at get_states.py line 158-159: the loaded
current_config compared with the candidate new_config; a failed load
yields the empty dict, which differs from any candidate document. -/
def config_changed (disk : Option Config) (cand : Config) : Bool :=
match disk with
| some c => decide ¬(c = cand)
| none => true

/-- The file chosen by the loop at get_states.py lines 170-173: the loop
assigns every name containing "config_encrypted", so the last matching
listing entry wins; none when no name matches, in which case line 174
raises an unbound-variable error. -/
def find_encrypted_config (files : List (String × Blob)) : Option (String × Blob) :=
(files.filter (fun p => has_encrypted_config_marker p.1)).getLast?

/-- Staging of a configuration blob.  Modelled from the spec:
write_data_to_file with config=True lives in ipfs.py, which is not under
src/; per the spec the configuration cache directory holds exactly one
marker-prefixed encrypted blob, overwritten on change, so staging
replaces any marker-named file with the freshly staged one. -/
def stage_config_blob (dir : ConfigDirState) (b : Blob) : ConfigDirState :=
{ dir with files :=
    (dir.files.filter (fun p => !(has_encrypted_config_marker p.1))) ++
      [("config_encrypted", b)] }

/-- Observable outcome of one run of the configuration branch of
get_dashboard_and_services (get_states.py lines 145-184). -/
structure ConfigCycleResult where
  encryptions : Nat
  uploads : Nat
  pointerCalls : Nat
  errored : Bool
  dir : ConfigDirState
  ipfsHashConfig : Option Blob
deriving DecidableEq

/-- The shared tail of the publish branch, get_states.py lines 176-182:
stage the blob, upload it (add_config_to_ipfs), store the content address
in hass.data and issue one set_config_topic pointer call. -/
def finish_config_publish (encCount : Nat) (dir : ConfigDirState) (b : Blob) :
    ConfigCycleResult :=
{ encryptions := encCount,
  uploads := 1,
  pointerCalls := 1,
  errored := false,
  dir := stage_config_blob dir b,
  ipfsHashConfig := some b }

/-- Embedding of the change-detection branch of get_dashboard_and_services
(get_states.py lines 145-184).  Inputs: the candidate document cand, the
configuration directory, and the cached content address held at
IPFS_HASH_CONFIG in hass.data (none when the key is absent).  When the
document changed, the new plaintext is persisted and freshly encrypted;
when it is unchanged but the content address is missing, the cached blob
is re-read from the marker-named file (an absent marker file raises the
unbound-variable error of line 174, caught at line 183); when it is
unchanged and the address is present, the whole branch is skipped. -/
def run_config_cycle (cand : Config) (dir : ConfigDirState) (hashConf : Option Blob) :
    ConfigCycleResult :=
let changed := config_changed dir.plaintext cand
if changed || hashConf.isNone then
  if changed then
    finish_config_publish 1 { dir with plaintext := some cand } (Blob.enc cand)
  else
    match find_encrypted_config dir.files with
    | some p => finish_config_publish 0 dir p.2
    | none =>
      { encryptions := 0, uploads := 0, pointerCalls := 0, errored := true,
        dir := dir, ipfsHashConfig := hashConf }
else
  { encryptions := 0, uploads := 0, pointerCalls := 0, errored := false,
    dir := dir, ipfsHashConfig := hashConf }

/-- Two consecutive cycles with the same candidate document: total
encryption operations and total pointer-set calls. -/
def run_two_config_cycles (cand : Config) (dir : ConfigDirState) (hashConf : Option Blob) :
    Nat × Nat :=
let r1 := run_config_cycle cand dir hashConf
let r2 := run_config_cycle cand r1.dir r1.ipfsHashConfig
(r1.encryptions + r2.encryptions, r1.pointerCalls + r2.pointerCalls)

/-- Which steps of a publish cycle raise, modelling the failure space of
get_and_send_data (get_states.py lines 41-66): clearing staged files and
keypair creation in the first try block, then collection, encryption,
staging, upload and the datalog pointer write in the second. -/
structure FailurePlan where
  clearFilesRaises : Bool
  keypairRaises : Bool
  getStatesRaises : Bool
  encryptRaises : Bool
  writeFileRaises : Bool
  ipfsRaises : Bool
  datalogRaises : Bool
deriving DecidableEq

/-- Observable outcome of one run of get_and_send_data: whether an
exception escaped to the caller, whether the telemetry datalog pointer
was written, and whether a caught error was logged. -/
structure OrchestratorResult where
  propagated : Bool
  datalogWritten : Bool
  errorLogged : Bool
deriving DecidableEq

/-- Embedding of get_and_send_data (get_states.py lines 41-66).  The
first try block (lines 47-52) clears staged files and builds the keypair;
a failure there is caught and logged, leaving sender_kp unbound, which
makes the encryption call at line 60 raise a name error inside the second
try block.  The second try block (lines 53-66) runs collection,
encryption, staging, upload and the datalog pointer write in order; the
first failing step aborts the rest, is caught at line 65 and logged.  No
exception ever escapes the function. -/
def get_and_send_data (p : FailurePlan) : OrchestratorResult :=
let keypairBound := !(p.clearFilesRaises) && !(p.keypairRaises)
if p.getStatesRaises then
  { propagated := false, datalogWritten := false, errorLogged := true }
else if !keypairBound then
  { propagated := false, datalogWritten := false, errorLogged := true }
else if p.encryptRaises then
  { propagated := false, datalogWritten := false, errorLogged := true }
else if p.writeFileRaises then
  { propagated := false, datalogWritten := false, errorLogged := true }
else if p.ipfsRaises then
  { propagated := false, datalogWritten := false, errorLogged := true }
else if p.datalogRaises then
  { propagated := false, datalogWritten := false, errorLogged := true }
else
  { propagated := false, datalogWritten := true, errorLogged := false }

/-- Embedding of is_valid_sub_admin_seed (config_flow.py lines 88-97):
Account construction is tried, the raised exception is returned, success
returns None implicitly.  The input is the outcome of the external
Account constructor on the provided seed. -/
def is_valid_sub_admin_seed (accountRaises : Option String) : Option String :=
match accountRaises with
| some e => some e
| none => none

/-- Embedding of has_sub_owner_subscription (config_flow.py lines 58-71):
false exactly when the ledger query returns None. -/
def has_sub_owner_subscription (ledger : Option String) : Bool :=
match ledger with
| none => false
| some _ => true

/-- Outcomes of the external collaborators consulted by validate_input:
whether Account(seed) raises, the address format check, the subscription
ledger query result and the devices membership query result. -/
structure ValidationEnv where
  accountRaises : Option String
  ownerAddressValid : Bool
  ownerLedger : Option String
  adminInSub : Bool
deriving DecidableEq

/-- The exception raised by validate_input, or its successful return
value. -/
inductive ValidationOutcome
| invalidSubAdminSeed
| invalidSubOwnerAddress
| noSubscription
| controllerNotInDevices
| ok (title : String)
deriving DecidableEq

/-- Embedding of validate_input (config_flow.py lines 111-127) paired
with the number of subscription (network) queries it performed: the seed
check runs first and raises InvalidSubAdminSeed when the returned
exception is truthy; then the address format check; then the two
subscription queries; when all four checks pass it returns the fixed
dict with title "Robonomics". -/
def validate_input (env : ValidationEnv) : ValidationOutcome × Nat :=
if (is_valid_sub_admin_seed env.accountRaises).isSome then
  (ValidationOutcome.invalidSubAdminSeed, 0)
else if !(env.ownerAddressValid) then
  (ValidationOutcome.invalidSubOwnerAddress, 0)
else if !(has_sub_owner_subscription env.ownerLedger) then
  (ValidationOutcome.noSubscription, 1)
else if !(env.adminInSub) then
  (ValidationOutcome.controllerNotInDevices, 2)
else
  (ValidationOutcome.ok ("Robonomics"), 2)

/-- Concrete collector input for the counterexample to the twin-key
claims: one qualifying entity whose owning device identifier is the
literal string "twin_id". -/
def twinCollisionHass : HassState :=
{ entities := [{ entity_id := "sensor.a", device_id := some "twin_id" }],
  states := fun eid => if eid = "sensor.a" then some { state := "5", attributes := [] } else none,
  raw_history := fun _ => [],
  device_registry := fun _ => { name_by_user := none, name := some ("dev") },
  twin_id := 7 }

/-- Concrete collector input for the counterexample to the
appears-iff-qualifying claim: a second qualifying entity owned by the
device whose identifier is the reserved string "twin_id". -/
def twinCollisionHass2 : HassState :=
{ entities := [{ entity_id := "light.b", device_id := some "twin_id" }],
  states := fun eid => if eid = "light.b" then some { state := "on", attributes := [] } else none,
  raw_history := fun _ => [],
  device_registry := fun _ => { name_by_user := some ("lamp"), name := none },
  twin_id := 3 }

/-- Concrete configuration document for the counterexample to the
republish-pointer-every-cycle claim. -/
def c1Doc : Config :=
{ services := [("light", "d")], dashboard := "dash", twin_id := 1 }

/-- Concrete configuration directory whose plaintext document equals the
candidate and which holds the cached encrypted blob. -/
def c1DirCached : ConfigDirState :=
{ plaintext := some c1Doc, files := [("config_encrypted", Blob.enc c1Doc)] }

/-- Concrete empty configuration directory for the two-cycle scenario. -/
def c1DirEmpty : ConfigDirState :=
{ plaintext := none, files := [] }

/-- Concrete collector input witnessing the amended appears-iff claim:
one qualifying entity owned by an ordinary device. -/
def c3WitnessHass : HassState :=
{ entities := [{ entity_id := "sensor.w", device_id := some ("d1") }],
  states := fun eid =>
    if eid = "sensor.w" then some { state := "1", attributes := [] } else none,
  raw_history := fun _ =>
    [{ state := "0", last_changed := "t0" }, { state := "1", last_changed := "t1" }],
  device_registry := fun _ => { name_by_user := none, name := some ("D") },
  twin_id := 2 }

/-- Concrete collector input witnessing the amended twin-key claim. -/
def c7WitnessHass : HassState :=
{ entities := [{ entity_id := "sensor.v", device_id := some ("d2") }],
  states := fun eid =>
    if eid = "sensor.v" then some { state := "3", attributes := [] } else none,
  raw_history := fun _ => [],
  device_registry := fun _ => { name_by_user := some ("V"), name := none },
  twin_id := 2 }

/-- Concrete collector input for the missing-unit claim: the entity state
carries no unit_of_measurement attribute. -/
def c8Hass : HassState :=
{ entities := [{ entity_id := "sensor.t", device_id := some ("dev1") }],
  states := fun eid =>
    if eid = "sensor.t" then
      some { state := "21", attributes := [("friendly_name", "Temp")] }
    else none,
  raw_history := fun _ => [],
  device_registry := fun _ => { name_by_user := none, name := some ("Device") },
  twin_id := 1 }

/-- The record the collector stores for the single entity of c8Hass. -/
def c8Info : EntityInfo := { units := "None", state := "21", history := [] }

/-! Theorems. -/

/-- Lookup after dict assignment: the assigned key reads back the new
value, every other key is unaffected. -/
theorem dictLookup_dictInsert {α : Type} (l : List (String × α)) (k q : String) (v : α) :
    dictLookup (dictInsert l k v) q = if k = q then some v else dictLookup l q := by
  induction l with
  | nil => by_cases hkq : k = q <;> simp [dictInsert, dictLookup, hkq]
  | cons p rest ih =>
    obtain ⟨k0, v0⟩ := p
    by_cases h0 : k0 = k
    · subst h0
      by_cases hkq : k0 = q <;> simp [dictInsert, dictLookup, hkq]
    · by_cases hkq : k0 = q
      · subst hkq
        have hk : ¬ k = k0 := fun hh => h0 hh.symm
        simp [dictInsert, dictLookup, h0, hk]
      · simp [dictInsert, dictLookup, h0, hkq, ih]

/-- Every member of a dict after assignment was a member before or is the
assigned binding. -/
theorem mem_dictInsert {α : Type} (x : String × α) (l : List (String × α)) (k : String)
    (v : α) (hx : x ∈ dictInsert l k v) : x ∈ l ∨ x = (k, v) := by
  induction l with
  | nil =>
    simp [dictInsert] at hx
    exact Or.inr hx
  | cons p rest ih =>
    obtain ⟨k0, v0⟩ := p
    by_cases h0 : k0 = k
    · subst h0
      simp [dictInsert] at hx
      rcases hx with hh | hh
      · exact Or.inr (by rw [hh])
      · exact Or.inl (List.mem_cons_of_mem _ hh)
    · simp [dictInsert, h0] at hx
      rcases hx with hh | hh
      · exact Or.inl (by simp [hh])
      · rcases ih hh with h1 | h1
        · exact Or.inl (List.mem_cons_of_mem _ h1)
        · exact Or.inr h1

/-- A successful lookup exhibits a member of the dict. -/
theorem dictLookup_mem {α : Type} (l : List (String × α)) (k : String) (v : α)
    (h : dictLookup l k = some v) : (k, v) ∈ l := by
  induction l with
  | nil => simp [dictLookup] at h
  | cons p rest ih =>
    obtain ⟨k0, v0⟩ := p
    by_cases h0 : k0 = k
    · subst h0
      simp [dictLookup] at h
      subst h
      exact List.mem_cons_self _ _
    · simp [dictLookup, h0] at h
      exact List.mem_cons_of_mem _ (ih h)

/-- A key of the dict looks up successfully. -/
theorem dictLookup_isSome_of_mem_keys {α : Type} (l : List (String × α)) (k : String)
    (h : k ∈ l.map Prod.fst) : (dictLookup l k).isSome = true := by
  induction l with
  | nil => simp at h
  | cons p rest ih =>
    obtain ⟨k0, v0⟩ := p
    by_cases h0 : k0 = k
    · simp [dictLookup, h0]
    · simp [dictLookup, h0]
      simp at h
      rcases h with hh | hh
      · exact absurd hh.symm h0
      · exact ih (by simpa using hh)

/-- Lookup through a value-mapped dict. -/
theorem dictLookup_map_snd {α β : Type} (f : α → β) (l : List (String × α)) (k : String) :
    dictLookup (l.map (fun p => (p.1, f p.2))) k = (dictLookup l k).map f := by
  induction l with
  | nil => rfl
  | cons p rest ih =>
    obtain ⟨k0, v0⟩ := p
    by_cases h0 : k0 = k <;> simp [dictLookup, h0, ih]

/-- Assigning an absent key appends the binding at the end. -/
theorem dictInsert_eq_append {α : Type} (l : List (String × α)) (k : String) (v : α)
    (h : dictLookup l k = none) : dictInsert l k v = l ++ [(k, v)] := by
  induction l with
  | nil => rfl
  | cons p rest ih =>
    obtain ⟨k0, v0⟩ := p
    by_cases h0 : k0 = k
    · simp [dictLookup, h0] at h
    · simp [dictLookup, h0] at h
      simp [dictInsert, h0, ih h]

/-- Unfolding lemma for entity_key_in_devices on a nonempty dict. -/
theorem entity_key_cons (p : String × DeviceRecord) (rest : List (String × DeviceRecord))
    (eid : String) :
    entity_key_in_devices (p :: rest) eid = true ↔
      (dictLookup p.2.entities eid).isSome = true ∨
        entity_key_in_devices rest eid = true := by
  simp [entity_key_in_devices]

/-- Unfolding lemma for record_pair_in_devices on a nonempty dict. -/
theorem record_pair_cons (p : String × DeviceRecord) (rest : List (String × DeviceRecord))
    (eid : String) (info : EntityInfo) :
    record_pair_in_devices (p :: rest) eid info = true ↔
      (eid, info) ∈ p.2.entities ∨ record_pair_in_devices rest eid info = true := by
  simp [record_pair_in_devices]

/-- Entity-key presence survives a dict assignment whose new record keeps
every entity key the looked-up old record had. -/
theorem entity_key_dictInsert_mono (devs : List (String × DeviceRecord)) (k : String)
    (r : DeviceRecord) (eid : String)
    (hsub : ∀ dr, dictLookup devs k = some dr →
      (dictLookup dr.entities eid).isSome = true →
      (dictLookup r.entities eid).isSome = true)
    (hin : entity_key_in_devices devs eid = true) :
    entity_key_in_devices (dictInsert devs k r) eid = true := by
  induction devs with
  | nil => simp [entity_key_in_devices] at hin
  | cons p rest ih =>
    obtain ⟨k0, d0⟩ := p
    rcases (entity_key_cons (k0, d0) rest eid).mp hin with hh | hh
    · by_cases h0 : k0 = k
      · subst h0
        have hr := hsub d0 (by simp [dictLookup]) hh
        simp [dictInsert, entity_key_in_devices, hr]
      · simp [dictInsert, h0, entity_key_in_devices, hh]
    · by_cases h0 : k0 = k
      · subst h0
        simp [dictInsert, entity_key_in_devices, hh]
      · have hsub2 : ∀ dr, dictLookup rest k = some dr →
            (dictLookup dr.entities eid).isSome = true →
            (dictLookup r.entities eid).isSome = true := by
          intro dr hdr
          exact hsub dr (by simp [dictLookup, h0, hdr])
        have hres := ih hsub2 hh
        simp [dictInsert, h0, entity_key_in_devices, hres]

/-- Entity-key presence after a dict assignment whose new record itself
holds the entity key. -/
theorem entity_key_dictInsert_self (devs : List (String × DeviceRecord)) (k : String)
    (r : DeviceRecord) (eid : String)
    (hr : (dictLookup r.entities eid).isSome = true) :
    entity_key_in_devices (dictInsert devs k r) eid = true := by
  induction devs with
  | nil => simp [dictInsert, entity_key_in_devices, hr]
  | cons p rest ih =>
    obtain ⟨k0, d0⟩ := p
    by_cases h0 : k0 = k <;> simp [dictInsert, h0, entity_key_in_devices, hr, ih]

/-- Entity-key presence after a dict assignment comes from the old dict
or from the assigned record. -/
theorem entity_key_dictInsert_fwd (devs : List (String × DeviceRecord)) (k : String)
    (r : DeviceRecord) (eid : String)
    (hin : entity_key_in_devices (dictInsert devs k r) eid = true) :
    entity_key_in_devices devs eid = true ∨ (dictLookup r.entities eid).isSome = true := by
  induction devs with
  | nil =>
    simp [dictInsert, entity_key_in_devices] at hin
    exact Or.inr hin
  | cons p rest ih =>
    obtain ⟨k0, d0⟩ := p
    by_cases h0 : k0 = k
    · subst h0
      have hin2 : entity_key_in_devices ((k0, r) :: rest) eid = true := by
        simpa [dictInsert] using hin
      rcases (entity_key_cons (k0, r) rest eid).mp hin2 with hh | hh
      · exact Or.inr hh
      · exact Or.inl ((entity_key_cons (k0, d0) rest eid).mpr (Or.inr hh))
    · have hin2 : entity_key_in_devices ((k0, d0) :: dictInsert rest k r) eid = true := by
        simpa [dictInsert, h0] using hin
      rcases (entity_key_cons (k0, d0) (dictInsert rest k r) eid).mp hin2 with hh | hh
      · exact Or.inl ((entity_key_cons (k0, d0) rest eid).mpr (Or.inl hh))
      · rcases ih hh with h1 | h1
        · exact Or.inl ((entity_key_cons (k0, d0) rest eid).mpr (Or.inr h1))
        · exact Or.inr h1

/-- A looked-up record holding the entity key makes the key present in
the dict. -/
theorem entity_key_of_lookup (devs : List (String × DeviceRecord)) (k : String)
    (dr : DeviceRecord) (eid : String)
    (hl : dictLookup devs k = some dr)
    (hdr : (dictLookup dr.entities eid).isSome = true) :
    entity_key_in_devices devs eid = true := by
  induction devs with
  | nil => simp [dictLookup] at hl
  | cons p rest ih =>
    obtain ⟨k0, d0⟩ := p
    by_cases h0 : k0 = k
    · simp [dictLookup, h0] at hl
      subst hl
      simp [entity_key_in_devices, hdr]
    · simp [dictLookup, h0] at hl
      simp [entity_key_in_devices, ih hl]

/-- A record pair present after a dict assignment comes from the old dict
or from the assigned record. -/
theorem record_pair_dictInsert_fwd (devs : List (String × DeviceRecord)) (k : String)
    (r : DeviceRecord) (eid : String) (info : EntityInfo)
    (hin : record_pair_in_devices (dictInsert devs k r) eid info = true) :
    record_pair_in_devices devs eid info = true ∨ (eid, info) ∈ r.entities := by
  induction devs with
  | nil =>
    simp [dictInsert, record_pair_in_devices] at hin
    exact Or.inr hin
  | cons p rest ih =>
    obtain ⟨k0, d0⟩ := p
    by_cases h0 : k0 = k
    · subst h0
      have hin2 : record_pair_in_devices ((k0, r) :: rest) eid info = true := by
        simpa [dictInsert] using hin
      rcases (record_pair_cons (k0, r) rest eid info).mp hin2 with hh | hh
      · exact Or.inr hh
      · exact Or.inl ((record_pair_cons (k0, d0) rest eid info).mpr (Or.inr hh))
    · have hin2 : record_pair_in_devices ((k0, d0) :: dictInsert rest k r) eid info = true := by
        simpa [dictInsert, h0] using hin
      rcases (record_pair_cons (k0, d0) (dictInsert rest k r) eid info).mp hin2 with hh | hh
      · exact Or.inl ((record_pair_cons (k0, d0) rest eid info).mpr (Or.inl hh))
      · rcases ih hh with h1 | h1
        · exact Or.inl ((record_pair_cons (k0, d0) rest eid info).mpr (Or.inr h1))
        · exact Or.inr h1

/-- A member record holding the pair makes the pair present in the dict. -/
theorem record_pair_of_mem (devs : List (String × DeviceRecord)) (k : String)
    (dr : DeviceRecord) (eid : String) (info : EntityInfo)
    (hm : (k, dr) ∈ devs) (hp : (eid, info) ∈ dr.entities) :
    record_pair_in_devices devs eid info = true := by
  induction devs with
  | nil => cases hm
  | cons p rest ih =>
    rcases List.mem_cons.mp hm with rfl | hmem
    · exact (record_pair_cons (k, dr) rest eid info).mpr (Or.inl hp)
    · exact (record_pair_cons p rest eid info).mpr (Or.inr (ih hmem))

/-- Equation lemma for process_entity: an entity with no owning device
is skipped. -/
theorem process_entity_skip_device (h : HassState) (acc : List (String × DeviceRecord))
    (e : EntityData) (hd : e.device_id = none) : process_entity h acc e = acc := by
  simp [process_entity, hd]

/-- Equation lemma for process_entity: an entity with no current state
is skipped. -/
theorem process_entity_skip_state (h : HassState) (acc : List (String × DeviceRecord))
    (e : EntityData) (did : String) (hd : e.device_id = some did)
    (hs : h.states e.entity_id = none) : process_entity h acc e = acc := by
  simp [process_entity, hd, hs]

/-- Equation lemma for process_entity: first entity of its device creates
the device bucket. -/
theorem process_entity_new_device (h : HassState) (acc : List (String × DeviceRecord))
    (e : EntityData) (did : String) (st : EntityState)
    (hd : e.device_id = some did) (hs : h.states e.entity_id = some st)
    (hl : dictLookup acc did = none) :
    process_entity h acc e = dictInsert acc did
      { name := device_display_name (h.device_registry did),
        entities := [(e.entity_id, entity_info_of h e.entity_id st)] } := by
  simp [process_entity, hd, hs, hl]

/-- Equation lemma for process_entity: a later entity of a known device
is inserted into the existing bucket. -/
theorem process_entity_update_device (h : HassState) (acc : List (String × DeviceRecord))
    (e : EntityData) (did : String) (st : EntityState) (dr : DeviceRecord)
    (hd : e.device_id = some did) (hs : h.states e.entity_id = some st)
    (hl : dictLookup acc did = some dr) :
    process_entity h acc e = dictInsert acc did
      { name := dr.name,
        entities := dictInsert dr.entities e.entity_id
          (entity_info_of h e.entity_id st) } := by
  simp [process_entity, hd, hs, hl]

/-- Processing one entity never drops an entity key already present in
the devices dict. -/
theorem entity_key_process_mono (h : HassState) (acc : List (String × DeviceRecord))
    (e : EntityData) (eid : String)
    (hin : entity_key_in_devices acc eid = true) :
    entity_key_in_devices (process_entity h acc e) eid = true := by
  cases hd : e.device_id with
  | none =>
    rw [process_entity_skip_device h acc e hd]
    exact hin
  | some did =>
    cases hs : h.states e.entity_id with
    | none =>
      rw [process_entity_skip_state h acc e did hd hs]
      exact hin
    | some st =>
      cases hl : dictLookup acc did with
      | none =>
        rw [process_entity_new_device h acc e did st hd hs hl]
        apply entity_key_dictInsert_mono acc did _ eid _ hin
        intro dr hdr
        rw [hl] at hdr
        cases hdr
      | some dr =>
        rw [process_entity_update_device h acc e did st dr hd hs hl]
        apply entity_key_dictInsert_mono acc did _ eid _ hin
        intro dr2 hdr2 hk
        rw [hl] at hdr2
        injection hdr2 with hdr2
        subst hdr2
        show (dictLookup (dictInsert dr.entities e.entity_id
          (entity_info_of h e.entity_id st)) eid).isSome = true
        rw [dictLookup_dictInsert]
        by_cases heq : e.entity_id = eid
        · simp [heq]
        · simp [heq, hk]

/-- Processing a qualifying entity makes its entity id present in the
devices dict. -/
theorem entity_key_process_self (h : HassState) (acc : List (String × DeviceRecord))
    (e : EntityData) (hq : qualifies h e = true) :
    entity_key_in_devices (process_entity h acc e) e.entity_id = true := by
  unfold qualifies at hq
  rw [Bool.and_eq_true] at hq
  obtain ⟨hq1, hq2⟩ := hq
  cases hd : e.device_id with
  | none => rw [hd] at hq1; cases hq1
  | some did =>
    cases hs : h.states e.entity_id with
    | none => rw [hs] at hq2; cases hq2
    | some st =>
      cases hl : dictLookup acc did with
      | none =>
        rw [process_entity_new_device h acc e did st hd hs hl]
        apply entity_key_dictInsert_self
        show (dictLookup [(e.entity_id, entity_info_of h e.entity_id st)]
          e.entity_id).isSome = true
        simp [dictLookup]
      | some dr =>
        rw [process_entity_update_device h acc e did st dr hd hs hl]
        apply entity_key_dictInsert_self
        show (dictLookup (dictInsert dr.entities e.entity_id
          (entity_info_of h e.entity_id st)) e.entity_id).isSome = true
        rw [dictLookup_dictInsert]
        simp

/-- An entity key present after processing one entity was present before
or is that entity's id, the entity then qualifying. -/
theorem entity_key_process_fwd (h : HassState) (acc : List (String × DeviceRecord))
    (e : EntityData) (eid : String)
    (hin : entity_key_in_devices (process_entity h acc e) eid = true) :
    entity_key_in_devices acc eid = true ∨
      (e.entity_id = eid ∧ qualifies h e = true) := by
  cases hd : e.device_id with
  | none =>
    rw [process_entity_skip_device h acc e hd] at hin
    exact Or.inl hin
  | some did =>
    cases hs : h.states e.entity_id with
    | none =>
      rw [process_entity_skip_state h acc e did hd hs] at hin
      exact Or.inl hin
    | some st =>
      have hqual : qualifies h e = true := by
        unfold qualifies
        rw [hd, hs]
        rfl
      cases hl : dictLookup acc did with
      | none =>
        rw [process_entity_new_device h acc e did st hd hs hl] at hin
        rcases entity_key_dictInsert_fwd acc did _ eid hin with h1 | h1
        · exact Or.inl h1
        · by_cases heq : e.entity_id = eid
          · exact Or.inr ⟨heq, hqual⟩
          · exfalso
            revert h1
            simp [dictLookup, heq]
      | some dr =>
        rw [process_entity_update_device h acc e did st dr hd hs hl] at hin
        rcases entity_key_dictInsert_fwd acc did _ eid hin with h1 | h1
        · exact Or.inl h1
        · have h1x : (dictLookup (dictInsert dr.entities e.entity_id
              (entity_info_of h e.entity_id st)) eid).isSome = true := h1
          rw [dictLookup_dictInsert] at h1x
          by_cases heq : e.entity_id = eid
          · exact Or.inr ⟨heq, hqual⟩
          · rw [if_neg heq] at h1x
            exact Or.inl (entity_key_of_lookup acc did dr eid hl h1x)

/-- A record pair present after processing one entity was present before
or is the freshly built record of that entity. -/
theorem record_pair_process_fwd (h : HassState) (acc : List (String × DeviceRecord))
    (e : EntityData) (eid : String) (info : EntityInfo)
    (hin : record_pair_in_devices (process_entity h acc e) eid info = true) :
    record_pair_in_devices acc eid info = true ∨
      (e.entity_id = eid ∧ e.device_id.isSome = true ∧
        ∃ st, h.states e.entity_id = some st ∧ info = entity_info_of h e.entity_id st) := by
  cases hd : e.device_id with
  | none =>
    rw [process_entity_skip_device h acc e hd] at hin
    exact Or.inl hin
  | some did =>
    cases hs : h.states e.entity_id with
    | none =>
      rw [process_entity_skip_state h acc e did hd hs] at hin
      exact Or.inl hin
    | some st =>
      cases hl : dictLookup acc did with
      | none =>
        rw [process_entity_new_device h acc e did st hd hs hl] at hin
        rcases record_pair_dictInsert_fwd acc did _ eid info hin with h1 | h1
        · exact Or.inl h1
        · have h1x : (eid, info) ∈ [(e.entity_id, entity_info_of h e.entity_id st)] := h1
          simp at h1x
          exact Or.inr ⟨h1x.1.symm, rfl, st, rfl, h1x.2⟩
      | some dr =>
        rw [process_entity_update_device h acc e did st dr hd hs hl] at hin
        rcases record_pair_dictInsert_fwd acc did _ eid info hin with h1 | h1
        · exact Or.inl h1
        · have h1x : (eid, info) ∈ dictInsert dr.entities e.entity_id
              (entity_info_of h e.entity_id st) := h1
          rcases mem_dictInsert _ _ _ _ h1x with h2 | h2
          · exact Or.inl (record_pair_of_mem acc did dr eid info
              (dictLookup_mem acc did dr hl) h2)
          · injection h2 with h2a h2b
            exact Or.inr ⟨h2a.symm, rfl, st, rfl, h2b⟩

/-- An entity key present in the devices dict is preserved by the whole
collector loop. -/
theorem entity_key_foldl_mono (h : HassState) (l : List EntityData)
    (acc : List (String × DeviceRecord)) (eid : String)
    (hin : entity_key_in_devices acc eid = true) :
    entity_key_in_devices (l.foldl (process_entity h) acc) eid = true := by
  induction l generalizing acc with
  | nil => exact hin
  | cons a t ih => exact ih _ (entity_key_process_mono h acc a eid hin)

/-- Every qualifying entity of the loop ends up with its entity id
present in the devices dict. -/
theorem entity_key_foldl_self (h : HassState) (l : List EntityData)
    (acc : List (String × DeviceRecord)) (e : EntityData)
    (he : e ∈ l) (hq : qualifies h e = true) :
    entity_key_in_devices (l.foldl (process_entity h) acc) e.entity_id = true := by
  induction l generalizing acc with
  | nil => cases he
  | cons a t ih =>
    rcases List.mem_cons.mp he with rfl | hmem
    · exact entity_key_foldl_mono h t _ _ (entity_key_process_self h acc e hq)
    · exact ih _ hmem

/-- An entity key present after the loop was present initially or stems
from a qualifying entity of the loop. -/
theorem entity_key_foldl_fwd (h : HassState) (l : List EntityData)
    (acc : List (String × DeviceRecord)) (eid : String)
    (hin : entity_key_in_devices (l.foldl (process_entity h) acc) eid = true) :
    entity_key_in_devices acc eid = true ∨
      ∃ e ∈ l, e.entity_id = eid ∧ qualifies h e = true := by
  induction l generalizing acc with
  | nil => exact Or.inl hin
  | cons a t ih =>
    rcases ih (process_entity h acc a) hin with h1 | h1
    · rcases entity_key_process_fwd h acc a eid h1 with h2 | h2
      · exact Or.inl h2
      · exact Or.inr ⟨a, List.mem_cons_self a t, h2.1, h2.2⟩
    · obtain ⟨e, he, h2⟩ := h1
      exact Or.inr ⟨e, List.mem_cons_of_mem _ he, h2⟩

/-- A record pair present after the loop was present initially or is the
built record of a qualifying entity of the loop. -/
theorem record_pair_foldl_fwd (h : HassState) (l : List EntityData)
    (acc : List (String × DeviceRecord)) (eid : String) (info : EntityInfo)
    (hin : record_pair_in_devices (l.foldl (process_entity h) acc) eid info = true) :
    record_pair_in_devices acc eid info = true ∨
      ∃ e ∈ l, e.entity_id = eid ∧ e.device_id.isSome = true ∧
        ∃ st, h.states eid = some st ∧ info = entity_info_of h eid st := by
  induction l generalizing acc with
  | nil => exact Or.inl hin
  | cons a t ih =>
    rcases ih (process_entity h acc a) hin with h1 | h1
    · rcases record_pair_process_fwd h acc a eid info h1 with h2 | h2
      · exact Or.inl h2
      · obtain ⟨h2a, h2b, st, h2c, h2d⟩ := h2
        exact Or.inr ⟨a, List.mem_cons_self a t, h2a, h2b, st, h2a ▸ h2c, h2a ▸ h2d⟩
    · obtain ⟨e, he, h2⟩ := h1
      exact Or.inr ⟨e, List.mem_cons_of_mem _ he, h2⟩

/-- A device key present after processing one entity was present before
or is that entity's owning device id. -/
theorem dictLookup_process_fwd (h : HassState) (acc : List (String × DeviceRecord))
    (e : EntityData) (k : String)
    (hk : (dictLookup (process_entity h acc e) k).isSome = true) :
    (dictLookup acc k).isSome = true ∨ e.device_id = some k := by
  cases hd : e.device_id with
  | none =>
    rw [process_entity_skip_device h acc e hd] at hk
    exact Or.inl hk
  | some did =>
    cases hs : h.states e.entity_id with
    | none =>
      rw [process_entity_skip_state h acc e did hd hs] at hk
      exact Or.inl hk
    | some st =>
      cases hl : dictLookup acc did with
      | none =>
        rw [process_entity_new_device h acc e did st hd hs hl] at hk
        rw [dictLookup_dictInsert] at hk
        by_cases hdk : did = k
        · exact Or.inr (by rw [hdk])
        · rw [if_neg hdk] at hk
          exact Or.inl hk
      | some dr =>
        rw [process_entity_update_device h acc e did st dr hd hs hl] at hk
        rw [dictLookup_dictInsert] at hk
        by_cases hdk : did = k
        · exact Or.inr (by rw [hdk])
        · rw [if_neg hdk] at hk
          exact Or.inl hk

/-- A device key present after the loop was present initially or is the
owning device id of some entity of the loop. -/
theorem dictLookup_foldl_fwd (h : HassState) (l : List EntityData)
    (acc : List (String × DeviceRecord)) (k : String)
    (hk : (dictLookup (l.foldl (process_entity h) acc) k).isSome = true) :
    (dictLookup acc k).isSome = true ∨ ∃ e ∈ l, e.device_id = some k := by
  induction l generalizing acc with
  | nil => exact Or.inl hk
  | cons a t ih =>
    rcases ih (process_entity h acc a) hk with h1 | h1
    · rcases dictLookup_process_fwd h acc a k h1 with h2 | h2
      · exact Or.inl h2
      · exact Or.inr ⟨a, List.mem_cons_self a t, h2⟩
    · obtain ⟨e, he, h2⟩ := h1
      exact Or.inr ⟨e, List.mem_cons_of_mem _ he, h2⟩

/-- When no entity is owned by a device named like the reserved key, the
devices dict has no binding at the reserved key. -/
theorem devices_lookup_twin_none (h : HassState)
    (htwin : ∀ e ∈ h.entities, e.device_id ≠ some ("twin_id")) :
    dictLookup (devices_data_of h) "twin_id" = none := by
  cases hl : dictLookup (devices_data_of h) "twin_id" with
  | none => rfl
  | some dr =>
    have hsome : (dictLookup (devices_data_of h) "twin_id").isSome = true := by
      rw [hl]; rfl
    unfold devices_data_of at hsome
    rcases dictLookup_foldl_fwd h h.entities [] "twin_id" hsome with h1 | h1
    · simp [dictLookup] at h1
    · obtain ⟨e, he, hee⟩ := h1
      exact absurd hee (htwin e he)

/-- Entity-key presence in the snapshot restricted to device values,
through the value constructor map. -/
theorem entity_in_snapshot_map_devices (devs : List (String × DeviceRecord)) (eid : String) :
    entity_in_snapshot (devs.map (fun p => (p.1, SnapshotValue.device p.2))) eid =
      entity_key_in_devices devs eid := by
  induction devs with
  | nil => rfl
  | cons p rest ih => simp [entity_in_snapshot, entity_key_in_devices, ih]

/-- Appending the reserved twin binding adds no entity key. -/
theorem entity_in_snapshot_append_twin (l : List (String × SnapshotValue)) (t : Nat)
    (eid : String) :
    entity_in_snapshot (l ++ [("twin_id", SnapshotValue.twin t)]) eid =
      entity_in_snapshot l eid := by
  induction l with
  | nil => rfl
  | cons p rest ih => simp [entity_in_snapshot, ih]

/-- When no entity is owned by a device named like the reserved key, an
entity id is in the snapshot exactly when it is in the devices dict. -/
theorem entity_in_snapshot_eq_devices (h : HassState)
    (htwin : ∀ e ∈ h.entities, e.device_id ≠ some ("twin_id")) (eid : String) :
    entity_in_snapshot (get_states h) eid =
      entity_key_in_devices (devices_data_of h) eid := by
  unfold get_states
  have hnone : dictLookup
      ((devices_data_of h).map (fun p => (p.1, SnapshotValue.device p.2))) "twin_id"
      = none := by
    rw [dictLookup_map_snd SnapshotValue.device]
    rw [devices_lookup_twin_none h htwin]
    rfl
  rw [dictInsert_eq_append _ _ _ hnone]
  rw [entity_in_snapshot_append_twin]
  exact entity_in_snapshot_map_devices _ _

/-- Unfolding lemma for entity_record_in_snapshot on a nonempty
snapshot. -/
theorem entity_record_snapshot_cons (p : String × SnapshotValue)
    (rest : List (String × SnapshotValue)) (eid : String) (info : EntityInfo) :
    entity_record_in_snapshot (p :: rest) eid info = true ↔
      (∃ d : DeviceRecord, p.2 = SnapshotValue.device d ∧ (eid, info) ∈ d.entities) ∨
        entity_record_in_snapshot rest eid info = true := by
  cases hp : p.2 with
  | device d => simp [entity_record_in_snapshot, hp]
  | twin t => simp [entity_record_in_snapshot, hp]

/-- A record pair of a snapshot comes from a device binding of the
snapshot. -/
theorem entity_record_in_snapshot_exists (snap : List (String × SnapshotValue))
    (eid : String) (info : EntityInfo)
    (hin : entity_record_in_snapshot snap eid info = true) :
    ∃ p ∈ snap, ∃ d : DeviceRecord,
      p.2 = SnapshotValue.device d ∧ (eid, info) ∈ d.entities := by
  induction snap with
  | nil => simp [entity_record_in_snapshot] at hin
  | cons p rest ih =>
    rcases (entity_record_snapshot_cons p rest eid info).mp hin with ⟨d, hd, hm⟩ | hh
    · exact ⟨p, List.mem_cons_self _ _, d, hd, hm⟩
    · obtain ⟨q, hq, d, hd, hm⟩ := ih hh
      exact ⟨q, List.mem_cons_of_mem _ hq, d, hd, hm⟩

/-- A record pair of the snapshot is a record pair of the devices dict:
the reserved twin binding holds no entity records. -/
theorem record_pair_of_snapshot (h : HassState) (eid : String) (info : EntityInfo)
    (hin : entity_record_in_snapshot (get_states h) eid info = true) :
    record_pair_in_devices (devices_data_of h) eid info = true := by
  unfold get_states at hin
  obtain ⟨p, hp, d, hd, hm⟩ := entity_record_in_snapshot_exists _ eid info hin
  rcases mem_dictInsert _ _ _ _ hp with hpm | hpe
  · rcases List.mem_map.mp hpm with ⟨q, hq, hqe⟩
    subst hqe
    have hd2 : q.2 = d := by
      injection hd
    exact record_pair_of_mem _ q.1 q.2 eid info hq (hd2 ▸ hm)
  · rw [hpe] at hd
    simp at hd
theorem config_marked_not_telemetry (f : String)
    (h : is_config_marked_file f = true) : is_telemetry_file f = false := by
  unfold is_config_marked_file charsStartWith at h
  have h16 : f.data.take ("config_encrypted".data.length) = "config_encrypted".data :=
    of_decide_eq_true h
  unfold is_telemetry_file charsStartWith
  apply decide_eq_false
  intro h4
  have ht : (f.data.take ("config_encrypted".data.length)).take ("data".data.length)
      = f.data.take ("data".data.length) := by
    rw [List.take_take]
    congr 1
  rw [h16] at ht
  have hx : ("config_encrypted".data).take ("data".data.length) = "data".data := by
    rw [ht, h4]
  exact absurd hx (by decide)

/-- C2: the stored history sequence is the raw range-query result with
its first record discarded: its length equals the raw length minus one,
and it is empty whenever the raw result has at most one record. -/
theorem c2_history_drops_boundary_record (raw : List RawState) :
    (get_state_history raw).length = raw.length - 1 ∧
    (raw.length ≤ 1 → get_state_history raw = []) := by
  constructor
  · simp [get_state_history]
  · intro hle
    simp [get_state_history, List.drop_eq_nil_of_le hle]

/-- Witness for C2 at a one-record raw history. -/
theorem c2_witness :
    (get_state_history [{ state := "on", last_changed := "t0" }]).length = 0 ∧
    get_state_history [{ state := "on", last_changed := "t0" }] = [] := by
  have h := c2_history_drops_boundary_record [{ state := "on", last_changed := "t0" }]
  exact ⟨h.1, h.2 (by decide)⟩

/-- C5: clear_files removes exactly the files whose names carry the
telemetry marker, keeps every configuration-marked file, and on the
directory with data_1, data_2 and config_encrypted_x it removes exactly
the two data files. -/
theorem c5_clear_telemetry_exactly_marked :
    (∀ (files : List String) (f : String),
        f ∈ clear_files files ↔ f ∈ files ∧ is_telemetry_file f = false) ∧
    (∀ (files : List String) (f : String),
        f ∈ cleared_files files ↔ f ∈ files ∧ is_telemetry_file f = true) ∧
    (∀ (files : List String) (f : String),
        f ∈ files → is_config_marked_file f = true → f ∈ clear_files files) ∧
    clear_files ["data_1", "data_2", "config_encrypted_x"] = ["config_encrypted_x"] ∧
    cleared_files ["data_1", "data_2", "config_encrypted_x"] = ["data_1", "data_2"] := by
  refine ⟨?_, ?_, ?_, by decide, by decide⟩
  · intro files f
    simp [clear_files, List.mem_filter]
  · intro files f
    simp [cleared_files, List.mem_filter]
  · intro files f hmem hconf
    rw [clear_files, List.mem_filter]
    exact ⟨hmem, by simp [config_marked_not_telemetry f hconf]⟩

/-- Witness for C5: a configuration-marked file survives cleanup. -/
theorem c5_witness :
    "config_encrypted_x" ∈ clear_files ["data_1", "config_encrypted_x"] :=
  c5_clear_telemetry_exactly_marked.2.2.1 ["data_1", "config_encrypted_x"]
    "config_encrypted_x" (by decide) (by decide)

/-- C4: get_and_send_data never propagates an exception to its caller,
a failure at any step before the datalog pointer write leaves the pointer
unwritten, and every failure is caught and logged. -/
theorem c4_orchestrator_contains_errors (p : FailurePlan) :
    (get_and_send_data p).propagated = false ∧
    ((p.clearFilesRaises || p.keypairRaises || p.getStatesRaises || p.encryptRaises ||
        p.writeFileRaises || p.ipfsRaises) = true →
      (get_and_send_data p).datalogWritten = false) ∧
    ((p.clearFilesRaises || p.keypairRaises || p.getStatesRaises || p.encryptRaises ||
        p.writeFileRaises || p.ipfsRaises || p.datalogRaises) = true →
      (get_and_send_data p).errorLogged = true) := by
  obtain ⟨a, b, c, d, e, f, g⟩ := p
  cases a <;> cases b <;> cases c <;> cases d <;> cases e <;> cases f <;> cases g <;> decide

/-- Witness for C4: an upload failure is contained and leaves the
datalog pointer unwritten. -/
theorem c4_witness :
    (get_and_send_data
        { clearFilesRaises := false, keypairRaises := false, getStatesRaises := false,
          encryptRaises := false, writeFileRaises := false, ipfsRaises := true,
          datalogRaises := false }).propagated = false ∧
    (get_and_send_data
        { clearFilesRaises := false, keypairRaises := false, getStatesRaises := false,
          encryptRaises := false, writeFileRaises := false, ipfsRaises := true,
          datalogRaises := false }).datalogWritten = false := by
  have h := c4_orchestrator_contains_errors
    { clearFilesRaises := false, keypairRaises := false, getStatesRaises := false,
      encryptRaises := false, writeFileRaises := false, ipfsRaises := true,
      datalogRaises := false }
  exact ⟨h.1, h.2.1 (by decide)⟩

/-- C10: validate_input raises InvalidSubAdminSeed exactly when Account
construction raises, in which case no subscription query is performed
(the seed check runs before the address check and before any network
query), and when all four checks pass it returns the fixed title. -/
theorem c10_validation_order (env : ValidationEnv) :
    ((validate_input env).1 = ValidationOutcome.invalidSubAdminSeed ↔
      env.accountRaises.isSome = true) ∧
    (env.accountRaises.isSome = true → (validate_input env).2 = 0) ∧
    (env.accountRaises = none → env.ownerAddressValid = true →
      has_sub_owner_subscription env.ownerLedger = true → env.adminInSub = true →
      (validate_input env).1 = ValidationOutcome.ok ("Robonomics")) := by
  obtain ⟨a, b, c, d⟩ := env
  cases a <;> cases b <;> cases c <;> cases d <;>
    simp [validate_input, is_valid_sub_admin_seed, has_sub_owner_subscription]

/-- Witness for C10 at concrete collaborator outcomes. -/
theorem c10_witness :
    (validate_input
        { accountRaises := some ("bad seed"), ownerAddressValid := false,
          ownerLedger := none, adminInSub := false }).1 =
      ValidationOutcome.invalidSubAdminSeed ∧
    (validate_input
        { accountRaises := some ("bad seed"), ownerAddressValid := false,
          ownerLedger := none, adminInSub := false }).2 = 0 ∧
    (validate_input
        { accountRaises := none, ownerAddressValid := true,
          ownerLedger := some ("ledger"), adminInSub := true }).1 =
      ValidationOutcome.ok ("Robonomics") := by
  refine ⟨?_, ?_, ?_⟩
  · exact (c10_validation_order _).1.mpr (by decide)
  · exact (c10_validation_order _).2.1 (by decide)
  · exact (c10_validation_order _).2.2 rfl rfl (by decide) rfl

/-- A candidate document never differs from itself. -/
theorem config_changed_self (c : Config) : config_changed (some c) c = false := by
  simp [config_changed]

/-- C1 counterexample: with an unchanged configuration and a present
content address the branch is skipped outright, with no pointer-set
call, and the two-cycle scenario with an initially-missing address
totals one encryption and one pointer call, not two pointer calls. -/
theorem c1_counterexample :
    (run_config_cycle c1Doc c1DirCached (some (Blob.enc c1Doc))).pointerCalls = 0 ∧
    run_two_config_cycles c1Doc c1DirEmpty none = (1, 1) ∧
    ¬ run_two_config_cycles c1Doc c1DirEmpty none = (1, 2) := by
  decide

/-- C1 amended: with an unchanged document and a present content address
the cycle skips configuration publication entirely (no pointer call, no
encryption); the cached-blob branch runs only when the address is
missing, then republishes the cached blob with one pointer call and no
encryption; and two consecutive cycles with an unchanged document and an
initially-missing address total exactly one encryption and exactly one
pointer call. -/
theorem c1_amended_unchanged_config (cand : Config) (dir : ConfigDirState)
    (hdisk : dir.plaintext = some cand) :
    (∀ b : Blob,
      (run_config_cycle cand dir (some b)).pointerCalls = 0 ∧
      (run_config_cycle cand dir (some b)).encryptions = 0 ∧
      (run_config_cycle cand dir (some b)).errored = false ∧
      (run_config_cycle cand dir (some b)).dir = dir) ∧
    (∀ p : String × Blob, find_encrypted_config dir.files = some p →
      (run_config_cycle cand dir none).encryptions = 0 ∧
      (run_config_cycle cand dir none).pointerCalls = 1 ∧
      (run_config_cycle cand dir none).ipfsHashConfig = some p.2) ∧
    (∀ c : Config,
      run_two_config_cycles c { plaintext := none, files := [] } none = (1, 1)) := by
  refine ⟨?_, ?_, ?_⟩
  · intro b
    simp [run_config_cycle, hdisk, config_changed_self]
  · intro p hp
    simp [run_config_cycle, hdisk, config_changed_self, hp, finish_config_publish]
  · intro c
    simp [run_two_config_cycles, run_config_cycle, config_changed, config_changed_self,
      finish_config_publish, stage_config_blob]

/-- Witness for C1 at a concrete unchanged document. -/
theorem c1_witness :
    (run_config_cycle { services := [], dashboard := "d", twin_id := 2 }
        { plaintext := some { services := [], dashboard := "d", twin_id := 2 }, files := [] }
        (some (Blob.raw ("cached")))).pointerCalls = 0 ∧
    run_two_config_cycles { services := [], dashboard := "d", twin_id := 2 }
        { plaintext := none, files := [] } none = (1, 1) := by
  have h := c1_amended_unchanged_config { services := [], dashboard := "d", twin_id := 2 }
    { plaintext := some { services := [], dashboard := "d", twin_id := 2 }, files := [] } rfl
  exact ⟨(h.1 (Blob.raw ("cached"))).1, h.2.2 _⟩

/-- C6: when the last-known plaintext document is absent or corrupt the
candidate is classified as changed, so the cycle encrypts once, uploads
once, issues one pointer call, persists the new plaintext document and
does not abort. -/
theorem c6_corrupt_cache_forces_republish (cand : Config) (dir : ConfigDirState)
    (hashConf : Option Blob) (hdisk : dir.plaintext = none) :
    config_changed dir.plaintext cand = true ∧
    (run_config_cycle cand dir hashConf).encryptions = 1 ∧
    (run_config_cycle cand dir hashConf).uploads = 1 ∧
    (run_config_cycle cand dir hashConf).pointerCalls = 1 ∧
    (run_config_cycle cand dir hashConf).errored = false ∧
    (run_config_cycle cand dir hashConf).dir.plaintext = some cand ∧
    (run_config_cycle cand dir hashConf).ipfsHashConfig = some (Blob.enc cand) := by
  refine ⟨by simp [config_changed, hdisk], ?_⟩
  simp [run_config_cycle, config_changed, hdisk, finish_config_publish, stage_config_blob]

/-- Witness for C6 at a concrete missing cache. -/
theorem c6_witness :
    (run_config_cycle { services := [("switch", "s")], dashboard := "x", twin_id := 4 }
        { plaintext := none, files := [("config_encrypted", Blob.raw ("stale"))] }
        (some (Blob.raw ("stale")))).encryptions = 1 := by
  have h := c6_corrupt_cache_forces_republish
    { services := [("switch", "s")], dashboard := "x", twin_id := 4 }
    { plaintext := none, files := [("config_encrypted", Blob.raw ("stale"))] }
    (some (Blob.raw ("stale"))) rfl
  exact h.2.1

/-- C9: when the document is unchanged, the content address is missing
and no file in the configuration directory carries the encrypted-config
marker, the reuse branch aborts on the unbound-variable error, which is
caught, and the cycle performs no encryption, no upload and no pointer
call, leaving the directory and the cached address untouched. -/
theorem c9_missing_cached_blob_skips_publication (cand : Config) (dir : ConfigDirState)
    (hdisk : dir.plaintext = some cand)
    (hnof : ∀ p ∈ dir.files, has_encrypted_config_marker p.1 = false) :
    (run_config_cycle cand dir none).errored = true ∧
    (run_config_cycle cand dir none).encryptions = 0 ∧
    (run_config_cycle cand dir none).uploads = 0 ∧
    (run_config_cycle cand dir none).pointerCalls = 0 ∧
    (run_config_cycle cand dir none).ipfsHashConfig = none ∧
    (run_config_cycle cand dir none).dir = dir := by
  have hfind : find_encrypted_config dir.files = none := by
    unfold find_encrypted_config
    rw [List.filter_eq_nil_iff.mpr (by simpa using hnof)]
    rfl
  simp [run_config_cycle, hdisk, config_changed_self, hfind]

/-- Witness for C9 at a concrete directory with no marker file. -/
theorem c9_witness :
    (run_config_cycle { services := [], dashboard := "y", twin_id := 9 }
        { plaintext := some { services := [], dashboard := "y", twin_id := 9 },
          files := [("config", Blob.raw ("plain"))] } none).errored = true ∧
    (run_config_cycle { services := [], dashboard := "y", twin_id := 9 }
        { plaintext := some { services := [], dashboard := "y", twin_id := 9 },
          files := [("config", Blob.raw ("plain"))] } none).pointerCalls = 0 := by
  have h := c9_missing_cached_blob_skips_publication
    { services := [], dashboard := "y", twin_id := 9 }
    { plaintext := some { services := [], dashboard := "y", twin_id := 9 },
      files := [("config", Blob.raw ("plain"))] } rfl (by decide)
  exact ⟨h.1, h.2.2.2.1⟩

/-- C3 counterexample: a qualifying entity (owning device present,
current state present) whose owning device identifier is the literal
string "twin_id" does not appear in any device bucket of the snapshot,
because the reserved twin_id assignment overwrites its device bucket. -/
theorem c3_counterexample :
    ({ entity_id := "light.b", device_id := some ("twin_id") } : EntityData) ∈
      twinCollisionHass2.entities ∧
    ({ entity_id := "light.b", device_id := some ("twin_id") } : EntityData).device_id.isSome
      = true ∧
    (twinCollisionHass2.states "light.b").isSome = true ∧
    entity_in_snapshot (get_states twinCollisionHass2) "light.b" = false := by
  decide

/-- C3 amended: when the entity registry has no duplicate entity ids and
no entity is owned by a device whose identifier is the reserved string
"twin_id", an entity appears in some device bucket of the snapshot
exactly when it has an owning device identifier and a current state. -/
theorem c3_amended_appears_iff (h : HassState) (e : EntityData)
    (he : e ∈ h.entities)
    (hnodup : (h.entities.map EntityData.entity_id).Nodup)
    (htwin : ∀ e2 ∈ h.entities, e2.device_id ≠ some ("twin_id")) :
    entity_in_snapshot (get_states h) e.entity_id = true ↔
      (e.device_id.isSome = true ∧ (h.states e.entity_id).isSome = true) := by
  rw [entity_in_snapshot_eq_devices h htwin]
  constructor
  · intro hin
    unfold devices_data_of at hin
    rcases entity_key_foldl_fwd h h.entities [] e.entity_id hin with h1 | h1
    · simp [entity_key_in_devices] at h1
    · obtain ⟨e2, he2, heq, hq⟩ := h1
      have he2e : e2 = e := List.inj_on_of_nodup_map hnodup he2 he heq
      subst he2e
      unfold qualifies at hq
      rw [Bool.and_eq_true] at hq
      exact hq
  · intro hq
    unfold devices_data_of
    apply entity_key_foldl_self h h.entities [] e he
    unfold qualifies
    rw [Bool.and_eq_true]
    exact hq

/-- Witness for C3 at a concrete one-entity registry. -/
theorem c3_witness :
    entity_in_snapshot (get_states c3WitnessHass) "sensor.w" = true := by
  have h := (c3_amended_appears_iff c3WitnessHass
    { entity_id := "sensor.w", device_id := some ("d1") }
    (by decide) (by decide) (by decide)).mpr ⟨by decide, by decide⟩
  exact h

/-- C7 counterexample: the reserved twin key can coincide with a device
identifier key: with a device whose identifier is literally "twin_id",
the reserved key is not distinct from every device identifier key (and
the colliding device bucket is overwritten by the twin binding). -/
theorem c7_counterexample :
    "twin_id" ∈ device_keys twinCollisionHass ∧
    dictLookup (get_states twinCollisionHass) "twin_id"
      = some (SnapshotValue.twin twinCollisionHass.twin_id) := by
  decide

/-- C7 amended: the reserved twin_id key is always present in the
snapshot and holds the twin identifier; provided no entity is owned by a
device whose identifier is the literal string "twin_id", the reserved key
is distinct from every device identifier key. -/
theorem c7_amended_twin_key (h : HassState) :
    dictLookup (get_states h) "twin_id" = some (SnapshotValue.twin h.twin_id) ∧
    ((∀ e ∈ h.entities, e.device_id ≠ some ("twin_id")) →
      ∀ k ∈ device_keys h, k ≠ "twin_id") := by
  constructor
  · unfold get_states
    rw [dictLookup_dictInsert]
    simp
  · intro htwin k hk hkeq
    subst hkeq
    unfold device_keys at hk
    have hsome : (dictLookup (devices_data_of h) "twin_id").isSome = true :=
      dictLookup_isSome_of_mem_keys _ _ hk
    rw [devices_lookup_twin_none h htwin] at hsome
    cases hsome

/-- Witness for C7 at a concrete one-device registry. -/
theorem c7_witness :
    dictLookup (get_states c7WitnessHass) "twin_id"
      = some (SnapshotValue.twin c7WitnessHass.twin_id) ∧
    ∀ k ∈ device_keys c7WitnessHass, k ≠ "twin_id" :=
  ⟨(c7_amended_twin_key c7WitnessHass).1,
    (c7_amended_twin_key c7WitnessHass).2 (by decide)⟩

/-- C8: every entity record of the snapshot whose entity state carries no
unit_of_measurement attribute has the literal string "None" in its units
field (and, by the shape of EntityInfo, every record carries the same
three fields units, state, history). -/
theorem c8_missing_unit_is_none_string (h : HassState) (eid : String) (info : EntityInfo)
    (st : EntityState)
    (hrec : entity_record_in_snapshot (get_states h) eid info = true)
    (hst : h.states eid = some st)
    (habs : dictLookup st.attributes ("unit_of_measurement") = none) :
    info.units = "None" := by
  have hp := record_pair_of_snapshot h eid info hrec
  unfold devices_data_of at hp
  rcases record_pair_foldl_fwd h h.entities [] eid info hp with h1 | h1
  · simp [record_pair_in_devices] at h1
  · obtain ⟨e, he, heq, hdev, st2, hst2, hinfo⟩ := h1
    rw [hst] at hst2
    injection hst2 with hst2
    subst hst2
    rw [hinfo]
    simp [entity_info_of, habs, pyStrOpt]

/-- Witness for C8 at a concrete entity without a unit attribute. -/
theorem c8_witness : c8Info.units = "None" :=
  c8_missing_unit_is_none_string c8Hass ("sensor.t") c8Info
    { state := "21", attributes := [("friendly_name", "Temp")] }
    (by decide) (by decide) (by decide)

end Robonomics
